import Mathlib

/-!
Verification of the ingredient-service stock-status and deduction core.

The development shallowly embeds the business logic of
src/routers/ingredients.py and src/routers/ingredientbatches.py:

* amounts and quantities are modelled as rationals (the service stores
  decimal quantities and Python floats; all constants in play are exact
  decimals);
* dates are modelled as integers (days); timestamps as integers;
* the relational store is a record of lists of rows; a request-scoped
  transaction is modelled by threading a working copy of the store and
  publishing it only at the commit point, so an aborted request leaves
  the durable store unchanged;
* SQL string equality under the service collation (Latin1_General_CI_AS
  and the ANSI padding rule, under which trailing blanks are ignored and
  comparison is case-insensitive) is modelled by sqlStrEq below, while
  the Python str.lower normalisation is modelled by lowerStr.
-/

namespace IngredientService

/-- Python str.lower as used on unit strings and names (ASCII case fold,
which is what both Python and the collation do on the strings in play). -/
def lowerStr (s : String) : String := ⟨s.data.map Char.toLower⟩

/-- Drop trailing blanks, as SQL comparison padding does. -/
def rtrim (s : String) : String := ⟨(s.data.reverse.dropWhile (fun c => c == ' ')).reverse⟩

/-- SQL string equality as the service database compares ingredient names
and measurement literals: case-insensitive, trailing blanks ignored
(ANSI padding applies to every SQL string comparison regardless of
collation accent options). Lower-casing first and then trimming is
equivalent to the converse order because case folding fixes blanks. -/
def sqlStrEq (a b : String) : Bool := rtrim (lowerStr a) == rtrim (lowerStr b)

/-- The thresholds dict of src/routers/ingredients.py (lines 23-25):
g maps to 50, kg to 0.5, ml to 100, l to 0.5; anything else is absent. -/
def thresholds (u : String) : Option ℚ :=
  if u = "g" then some 50
  else if u = "kg" then some (1/2)
  else if u = "ml" then some 100
  else if u = "l" then some (1/2)
  else none

/-- get_status of src/routers/ingredients.py (lines 27-31): the
single-record threshold rule. The dict lookup defaults to 1. -/
def get_status (amount : ℚ) (measurement : String) : String :=
  let meas_lower := lowerStr measurement
  if amount ≤ 0 then "Not Available"
  else if amount ≤ (thresholds meas_lower).getD 1 then "Low Stock"
  else "Available"

/-- The bulk UPDATE ... SET Status = CASE ... of the deduction endpoint
(src/routers/ingredients.py lines 294-306), evaluated per row: the SQL
CASE over Amount and Measurement, with SQL string comparison semantics. -/
def bulk_status (amount : ℚ) (measurement : String) : String :=
  if amount ≤ 0 then "Not Available"
  else if (sqlStrEq measurement "g" && decide (amount ≤ 50)) ||
          (sqlStrEq measurement "kg" && decide (amount ≤ 1/2)) ||
          (sqlStrEq measurement "ml" && decide (amount ≤ 100)) ||
          (sqlStrEq measurement "l" && decide (amount ≤ 1/2)) ||
          (!(sqlStrEq measurement "g" || sqlStrEq measurement "kg" ||
             sqlStrEq measurement "ml" || sqlStrEq measurement "l") &&
           decide (amount ≤ 1)) then "Low Stock"
  else "Available"

/-- The batch lifecycle rule as computed at batch creation
(src/routers/ingredientbatches.py lines 77-81): expiration on or before
today wins, then zero quantity, else Available. -/
def create_batch_status (quantity : ℚ) (expiration today : Int) : String :=
  if expiration ≤ today then "Expired"
  else if quantity = 0 then "Used"
  else "Available"

/-- The batch lifecycle rule as recomputed by the batch update endpoint
(src/routers/ingredientbatches.py lines 293-299): same shape as at
creation. -/
def update_batch_status (quantity : ℚ) (expiration today : Int) : String :=
  if expiration ≤ today then "Expired"
  else if quantity = 0 then "Used"
  else "Available"

/-- The per-row recompute of the two lazy batch read endpoints
(src/routers/ingredientbatches.py lines 155-168 and 205-219): zero
quantity is checked first and maps to Used; otherwise an expiration
strictly before today maps to Expired; otherwise the stored status is
kept. ExpirationDate is non-nullable in this model (the creation
endpoint requires it), so the Python truthiness guard on it is vacuous. -/
def lazy_status (stored : String) (quantity : ℚ) (expiration today : Int) : String :=
  if quantity = 0 then "Used"
  else if expiration < today then "Expired"
  else stored

/-- The threshold table exactly as the specification words it: g maps to
50, kg to 0.5, ml to 100, l to 0.5, any other unit to 1, matched
case-insensitively. Stated from the spec for comparison with get_status. -/
def spec_threshold (u : String) : ℚ :=
  if lowerStr u = "g" then 50
  else if lowerStr u = "kg" then 1/2
  else if lowerStr u = "ml" then 100
  else if lowerStr u = "l" then 1/2
  else 1

/-- A row of the Ingredients table. -/
structure Ingredient where
  id : Nat
  name : String
  amount : ℚ
  measurement : String
  bestBefore : Int
  expiration : Int
  stat : String
deriving DecidableEq

/-- A row of the IngredientBatches table. ExpirationDate is modelled as
non-nullable because the creation endpoint requires it. -/
structure Batch where
  batchId : Nat
  ingredientId : Nat
  quantity : ℚ
  unit : String
  batchDate : Int
  expirationDate : Int
  restockDate : Int
  loggedBy : String
  notes : Option String
  stat : String
deriving DecidableEq

/-- A row of the Recipes table (RecipeID, ProductID). -/
structure Recipe where
  recipeId : Nat
  productId : Nat
deriving DecidableEq

/-- A row of the RecipeIngredients table (RecipeID, IngredientID, Amount,
Measurement). -/
structure RecipeIngredient where
  recipeId : Nat
  ingredientId : Nat
  amount : ℚ
  measurement : String
deriving DecidableEq

/-- A row of the Products table. -/
structure Product where
  productId : Nat
  productName : String
deriving DecidableEq

/-- The durable relational store. -/
structure DB where
  ingredients : List Ingredient
  batches : List Batch
  recipes : List Recipe
  recipeIngredients : List RecipeIngredient
  products : List Product
deriving DecidableEq

/-- An HTTPException raised by a handler: status code and detail text. -/
structure ApiError where
  code : Nat
  detail : String
deriving DecidableEq

/-- The payload of POST /ingredients/ (IngredientCreate). -/
structure IngredientCreate where
  IngredientName : String
  Amount : ℚ
  Measurement : String
  BestBeforeDate : Int
  ExpirationDate : Int
deriving DecidableEq

/-- The payload of PUT /ingredients/id (IngredientUpdate, same fields as
IngredientCreate). -/
structure IngredientUpdate where
  IngredientName : String
  Amount : ℚ
  Measurement : String
  BestBeforeDate : Int
  ExpirationDate : Int
deriving DecidableEq

/-- One cart line of the deduction request: product name and a sold
quantity (a positive integer by request validation). -/
structure SoldItem where
  name : String
  quantity : Nat
deriving DecidableEq

/-- add_ingredient (src/routers/ingredients.py lines 100-125): reject
with 409 when some existing row has the same name under the
case-insensitive collation; otherwise insert the row with its
write-time threshold status and commit. The 409 path raises before any
write, so the store is unchanged there. -/
def add_ingredient (db : DB) (ing : IngredientCreate) (newId : Nat) :
    DB × Except ApiError Ingredient :=
  if db.ingredients.any (fun i => sqlStrEq i.name ing.IngredientName) then
    (db, .error ⟨409, "Ingredient name already exists."⟩)
  else
    let status_val := get_status ing.Amount ing.Measurement
    let row : Ingredient :=
      ⟨newId, ing.IngredientName, ing.Amount, ing.Measurement,
       ing.BestBeforeDate, ing.ExpirationDate, status_val⟩
    ({ db with ingredients := db.ingredients ++ [row] }, .ok row)

/-- update_ingredient (src/routers/ingredients.py lines 128-161): first
the name-conflict check against any other row (409), then the UPDATE,
then a re-select by id; a missing row raises 404 before the commit, so
the uncommitted UPDATE is discarded and the store is unchanged on every
error path. -/
def update_ingredient (db : DB) (ingredient_id : Nat) (ing : IngredientUpdate) :
    DB × Except ApiError Ingredient :=
  if db.ingredients.any
      (fun i => sqlStrEq i.name ing.IngredientName && !(i.id == ingredient_id)) then
    (db, .error ⟨409, "Ingredient name already exists."⟩)
  else
    let status_val := get_status ing.Amount ing.Measurement
    let db1 : DB :=
      { db with ingredients := db.ingredients.map (fun i =>
          if i.id == ingredient_id then
            { i with name := ing.IngredientName, amount := ing.Amount,
                     measurement := ing.Measurement, bestBefore := ing.BestBeforeDate,
                     expiration := ing.ExpirationDate, stat := status_val }
          else i) }
    match db1.ingredients.find? (fun i => i.id == ingredient_id) with
    | none => (db, .error ⟨404, "Ingredient not found"⟩)
    | some row => (db1, .ok row)

/-- The payload of POST /ingredient-batches/ (IngredientBatchCreate). -/
structure BatchCreate where
  ingredient_id : Nat
  quantity : ℚ
  unit : String
  batch_date : Int
  expiration_date : Int
  logged_by : String
  notes : Option String
deriving DecidableEq

/-- The payload of PUT /ingredient-batches/id (IngredientBatchUpdate):
each field is present only when the caller supplied it (pydantic
exclude_unset). For notes the supplied value may itself be null. -/
structure BatchUpdate where
  quantity : Option ℚ
  unit : Option String
  batch_date : Option Int
  expiration_date : Option Int
  logged_by : Option String
  notes : Option (Option String)
deriving DecidableEq

/-- True when no field of the update payload was supplied; the handler
answers 400 "No fields to update." in that case. -/
def BatchUpdate.isEmpty (u : BatchUpdate) : Bool :=
  u.quantity.isNone && u.unit.isNone && u.batch_date.isNone &&
  u.expiration_date.isNone && u.logged_by.isNone && u.notes.isNone

/-- Overwrite exactly the supplied fields of a batch row, as the dynamic
UPDATE statement of the batch update endpoint does. -/
def applyBatchUpdate (u : BatchUpdate) (b : Batch) : Batch :=
  { b with
    quantity := u.quantity.getD b.quantity,
    unit := u.unit.getD b.unit,
    batchDate := u.batch_date.getD b.batchDate,
    expirationDate := u.expiration_date.getD b.expirationDate,
    loggedBy := u.logged_by.getD b.loggedBy,
    notes := u.notes.getD b.notes }

/-- create_batch (src/routers/ingredientbatches.py lines 71-126): compute
the lifecycle status, insert the batch (RestockDate is server-assigned,
modelled by the now argument), fetch the parent ingredient name (404 if
absent, in which case the uncommitted insert is discarded on close),
add the batch quantity to the parent ingredient amount, commit. -/
def create_batch (db : DB) (batch : BatchCreate) (newId : Nat) (today now : Int) :
    DB × Except ApiError Batch :=
  let st := create_batch_status batch.quantity batch.expiration_date today
  let inserted : Batch :=
    ⟨newId, batch.ingredient_id, batch.quantity, batch.unit, batch.batch_date,
     batch.expiration_date, now, batch.logged_by, batch.notes, st⟩
  let db1 : DB := { db with batches := db.batches ++ [inserted] }
  match db.ingredients.find? (fun i => i.id == batch.ingredient_id) with
  | none => (db, .error ⟨404, "Ingredient not found"⟩)
  | some _ =>
    let db2 : DB :=
      { db1 with ingredients := db1.ingredients.map (fun i =>
          if i.id == batch.ingredient_id then { i with amount := i.amount + batch.quantity }
          else i) }
    (db2, .ok inserted)

/-- update_batch (src/routers/ingredientbatches.py lines 241-322): fetch
the old row (404 if absent), reject an empty payload (400), apply the
supplied fields, and when quantity was supplied add the delta between
new and old quantity to the parent ingredient amount; then re-fetch the
row, recompute the lifecycle status, and write it back unconditionally.
The third component counts the status write statements executed. -/
def update_batch (db : DB) (batch_id : Nat) (data : BatchUpdate) (today : Int) :
    DB × Except ApiError Batch × Nat :=
  match db.batches.find? (fun b => b.batchId == batch_id) with
  | none => (db, .error ⟨404, "Batch not found."⟩, 0)
  | some old_row =>
    if data.isEmpty then (db, .error ⟨400, "No fields to update."⟩, 0)
    else
      let db1 : DB :=
        { db with batches := db.batches.map (fun b =>
            if b.batchId == batch_id then applyBatchUpdate data b else b) }
      let db2 : DB :=
        match data.quantity with
        | some q =>
          { db1 with ingredients := db1.ingredients.map (fun i =>
              if i.id == old_row.ingredientId then
                { i with amount := i.amount + (q - old_row.quantity) }
              else i) }
        | none => db1
      match db2.batches.find? (fun b => b.batchId == batch_id) with
      | none => (db, .error ⟨500, "Batch not found."⟩, 0)
      | some row =>
        let new_status := update_batch_status row.quantity row.expirationDate today
        let db3 : DB :=
          { db2 with batches := db2.batches.map (fun b =>
              if b.batchId == batch_id then { b with stat := new_status } else b) }
        (db3, .ok { row with stat := new_status }, 1)

/-- get_all_batches (src/routers/ingredientbatches.py lines 129-188),
reduced to its store effect: the rows are the batches joined with their
existing parent ingredient; for each fetched row the lazy recompute runs
and a status UPDATE is issued only when the recomputed status differs
from the stored one. Returns the store after the loop and the number of
status write statements executed (the response payload mirrors the
updated rows and is not needed by the claims). The endpoint for a single
ingredient (lines 191-238) runs the identical per-row logic.

lazyReadStep is the body of that loop: recompute the lazy status for one
fetched row and issue a status UPDATE only when it differs. -/
def lazyReadStep (today : Int) (acc : DB × Nat) (row : Batch) : DB × Nat :=
  let new_status := lazy_status row.stat row.quantity row.expirationDate today
  if new_status ≠ row.stat then
    ({ acc.1 with batches := acc.1.batches.map (fun b =>
         if b.batchId == row.batchId then { b with stat := new_status } else b) },
     acc.2 + 1)
  else acc

/-- The loop of get_all_batches over the fetched rows (the batches whose
parent ingredient exists, per the JOIN), started on the durable store
with zero writes performed. -/
def get_all_batches (db : DB) (today : Int) : DB × Nat :=
  let rows := db.batches.filter (fun b =>
    db.ingredients.any (fun i => i.id == b.ingredientId))
  rows.foldl (lazyReadStep today) (db, 0)

/-- The outcome of the deduction endpoint: the 200 acknowledgement body,
or the single generic 500 raised by the exception handler. -/
inductive DeductResult where
  | success (msg : String)
  | serverError (code : Nat) (detail : String)
deriving DecidableEq

/-- The transaction-local state while the deduction request runs: the
working copy of the store (uncommitted writes included) and how many
database statements have executed so far. -/
structure TxState where
  db : DB
  ops : Nat
deriving DecidableEq

/-- One database statement inside the deduction transaction. The failAt
argument injects a data-access failure: statement number k raises when
failAt is some k, modelling a driver or server error at any step; on
success the statement applies its effect (reads apply the identity) to
the working copy. -/
def doOp (failAt : Option Nat) (s : TxState) (f : DB → DB) : Except Unit TxState :=
  if failAt == some s.ops then .error () else .ok ⟨f s.db, s.ops + 1⟩

/-- SELECT r.RecipeID FROM Recipes r JOIN Products p ... WHERE
p.ProductName = name, fetchone: the first recipe whose product matches
the sold name under SQL string comparison. -/
def recipeForProduct (db : DB) (name : String) : Option Nat :=
  ((db.recipes.filter (fun r => db.products.any (fun p =>
      p.productId == r.productId && sqlStrEq p.productName name))).head?).map
    Recipe.recipeId

/-- SELECT IngredientID, Amount, Measurement FROM RecipeIngredients WHERE
RecipeID = rid, fetchall. -/
def recipeIngredientsFor (db : DB) (rid : Nat) : List RecipeIngredient :=
  db.recipeIngredients.filter (fun ri => ri.recipeId == rid)

/-- UPDATE Ingredients SET Amount = Amount - amt WHERE IngredientID = iid:
no floor or clamp, the stored amount may become negative. -/
def applyDeduction (iid : Nat) (amt : ℚ) (db : DB) : DB :=
  { db with ingredients := db.ingredients.map (fun i =>
      if i.id == iid then { i with amount := i.amount - amt } else i) }

/-- The bulk status UPDATE at the end of the deduction transaction
(src/routers/ingredients.py lines 294-306): every row of the Ingredients
table gets the SQL CASE status for its current amount and measurement. -/
def bulkRecompute (db : DB) : DB :=
  { db with ingredients := db.ingredients.map (fun i =>
      { i with stat := bulk_status i.amount i.measurement }) }

/-- The inner loop of the deduction endpoint (src/routers/ingredients.py
lines 281-291): one UPDATE per recipe-ingredient row, subtracting the
per-unit amount times the sold quantity. -/
def deductItemIngredients (failAt : Option Nat) (qty : Nat) :
    List RecipeIngredient → TxState → Except Unit TxState
  | [], s => .ok s
  | ri :: rest, s =>
    match doOp failAt s (applyDeduction ri.ingredientId (ri.amount * (qty : ℚ))) with
    | .error e => .error e
    | .ok s1 => deductItemIngredients failAt qty rest s1

/-- The per-cart-item loop of the deduction endpoint
(src/routers/ingredients.py lines 255-291): resolve the product to a
recipe (a read statement; a missing recipe skips the item and continues),
read the recipe rows, and run the per-ingredient deductions. -/
def deductItems (failAt : Option Nat) :
    List SoldItem → TxState → Except Unit TxState
  | [], s => .ok s
  | item :: rest, s =>
    match doOp failAt s (fun d => d) with
    | .error e => .error e
    | .ok s1 =>
      match recipeForProduct s1.db item.name with
      | none => deductItems failAt rest s1
      | some rid =>
        match doOp failAt s1 (fun d => d) with
        | .error e => .error e
        | .ok s2 =>
          match deductItemIngredients failAt item.quantity
              (recipeIngredientsFor s2.db rid) s2 with
          | .error e => .error e
          | .ok s3 => deductItems failAt rest s3

/-- deduct_ingredients_from_sale (src/routers/ingredients.py lines
237-319): the whole request body runs inside one try block over one
connection; after the item loop the bulk status pass runs, then the
single commit publishes the working copy. Any raise lands in the except
branch, which rolls the connection back (the durable store stays as it
was) and answers one generic 500. -/
def deduct (db : DB) (cartItems : List SoldItem) (failAt : Option Nat) :
    DB × DeductResult :=
  match deductItems failAt cartItems ⟨db, 0⟩ with
  | .error _ => (db, .serverError 500 "Failed to update inventory.")
  | .ok s1 =>
    match doOp failAt s1 bulkRecompute with
    | .error _ => (db, .serverError 500 "Failed to update inventory.")
    | .ok s2 =>
      match doOp failAt s2 (fun d => d) with
      | .error _ => (db, .serverError 500 "Failed to update inventory.")
      | .ok s3 => (s3.db, .success "Inventory deducted successfully.")

/-- The effect of one cart item on the working store when no statement
fails: no recipe leaves the store unchanged; otherwise the recipe rows
are folded through applyDeduction in table order. -/
def pureApplyItem (db : DB) (item : SoldItem) : DB :=
  match recipeForProduct db item.name with
  | none => db
  | some rid =>
    (recipeIngredientsFor db rid).foldl
      (fun d ri => applyDeduction ri.ingredientId (ri.amount * (item.quantity : ℚ)) d) db

/-- The effect of the whole cart on the working store when no statement
fails, in submission order. -/
def pureApplyItems (db : DB) : List SoldItem → DB
  | [] => db
  | item :: rest => pureApplyItems (pureApplyItem db item) rest

/-- The deduction a single cart item causes to the ingredient with the
given id, read off the resolution tables: zero when the product has no
recipe, else the sum over the recipe rows for that ingredient of the
per-unit amount times the sold quantity. -/
def itemDeduction (db : DB) (item : SoldItem) (iid : Nat) : ℚ :=
  match recipeForProduct db item.name with
  | none => 0
  | some rid =>
    (((recipeIngredientsFor db rid).filter (fun ri => ri.ingredientId == iid)).map
      (fun ri => ri.amount * (item.quantity : ℚ))).sum

/-- The total deduction a cart causes to the ingredient with the given
id. -/
def cartDeduction (db : DB) (cartItems : List SoldItem) (iid : Nat) : ℚ :=
  (cartItems.map (fun item => itemDeduction db item iid)).sum

/-! ## Helper lemmas -/

/-- Every threshold in the specification table is positive. -/
theorem spec_threshold_pos (u : String) : 0 < spec_threshold u := by
  unfold spec_threshold
  by_cases h1 : lowerStr u = "g" <;> by_cases h2 : lowerStr u = "kg" <;>
    by_cases h3 : lowerStr u = "ml" <;> by_cases h4 : lowerStr u = "l" <;>
    simp [h1, h2, h3, h4]

/-- The dict lookup with default 1 agrees with the threshold table as the
specification words it. -/
theorem thresholds_getD (u : String) :
    (thresholds (lowerStr u)).getD 1 = spec_threshold u := by
  unfold thresholds spec_threshold
  by_cases h1 : lowerStr u = "g" <;> by_cases h2 : lowerStr u = "kg" <;>
    by_cases h3 : lowerStr u = "ml" <;> by_cases h4 : lowerStr u = "l" <;>
    simp [h1, h2, h3, h4]

/-- On strings whose lowercase form carries no trailing blanks, SQL
equality against a trimmed key reduces to case-insensitive equality. -/
theorem sqlStrEq_of_rtrim (m k : String) (h : rtrim (lowerStr m) = lowerStr m)
    (hk : rtrim (lowerStr k) = k) : sqlStrEq m k = (lowerStr m == k) := by
  unfold sqlStrEq; rw [h, hk]

/-- The lazy read loop issues exactly one status write per fetched row
whose recomputed status differs from the stored one. -/
theorem lazy_fold_count (today : Int) (rows : List Batch) :
    ∀ acc : DB × Nat,
      (rows.foldl (lazyReadStep today) acc).2 =
        acc.2 + (rows.filter (fun b =>
          lazy_status b.stat b.quantity b.expirationDate today ≠ b.stat)).length := by
  induction rows with
  | nil => intro acc; simp
  | cons row rest ih =>
    intro acc
    rw [List.foldl_cons, ih, List.filter_cons]
    by_cases h : lazy_status row.stat row.quantity row.expirationDate today = row.stat
    · simp [lazyReadStep, h]
    · simp [lazyReadStep, h]
      omega

/-- The batch update endpoint either fails without any status write or
executes exactly one status write statement. -/
theorem update_batch_write_or_error (db : DB) (batch_id : Nat) (data : BatchUpdate)
    (today : Int) :
    (∃ e, (update_batch db batch_id data today).2 = (Except.error e, 0)) ∨
    (update_batch db batch_id data today).2.2 = 1 := by
  unfold update_batch
  split
  · left; exact ⟨_, rfl⟩
  · split
    · left; exact ⟨_, rfl⟩
    · dsimp only
      split
      · left; exact ⟨_, rfl⟩
      · right; rfl

/-- A transaction statement that returns normally applied its effect to
the working copy and advanced the statement counter. -/
theorem doOp_ok {fa : Option Nat} {s : TxState} {f : DB → DB} {r : TxState}
    (h : doOp fa s f = .ok r) : r = ⟨f s.db, s.ops + 1⟩ := by
  unfold doOp at h
  split at h
  · exact absurd h (by simp)
  · exact (Except.ok.inj h).symm

/-- With no injected failure a transaction statement always returns
normally. -/
theorem doOp_none (s : TxState) (f : DB → DB) :
    doOp none s f = .ok ⟨f s.db, s.ops + 1⟩ := rfl

/-- A per-recipe-row deduction loop that returns normally folds its rows
through applyDeduction on the working copy. -/
theorem deductItemIngredients_ok (fa : Option Nat) (qty : Nat) :
    ∀ (ris : List RecipeIngredient) (s s' : TxState),
      deductItemIngredients fa qty ris s = .ok s' →
      s'.db = ris.foldl
        (fun d ri => applyDeduction ri.ingredientId (ri.amount * (qty : ℚ)) d) s.db := by
  intro ris
  induction ris with
  | nil =>
    intro s s' h
    rw [deductItemIngredients] at h
    rw [← Except.ok.inj h]
    rfl
  | cons ri rest ih =>
    intro s s' h
    rw [deductItemIngredients] at h
    cases hop : doOp fa s (applyDeduction ri.ingredientId (ri.amount * (qty : ℚ))) with
    | error e => rw [hop] at h; exact absurd h (by simp)
    | ok s1 =>
      rw [hop] at h
      rw [List.foldl_cons, ih s1 s' h, doOp_ok hop]

/-- With no injected failure the per-recipe-row loop never raises. -/
theorem deductItemIngredients_none_ok (qty : Nat) :
    ∀ (ris : List RecipeIngredient) (s : TxState),
      ∃ s', deductItemIngredients none qty ris s = .ok s' := by
  intro ris
  induction ris with
  | nil => intro s; exact ⟨s, rfl⟩
  | cons ri rest ih =>
    intro s
    rw [deductItemIngredients]
    rw [doOp_none]
    exact ih _

/-- A cart loop that returns normally leaves the working copy in the
pure multi-item deduction state. -/
theorem deductItems_ok (fa : Option Nat) :
    ∀ (items : List SoldItem) (s s' : TxState),
      deductItems fa items s = .ok s' → s'.db = pureApplyItems s.db items := by
  intro items
  induction items with
  | nil =>
    intro s s' h
    rw [deductItems] at h
    rw [← Except.ok.inj h]
    rfl
  | cons item rest ih =>
    intro s s' h
    rw [deductItems] at h
    cases hop1 : doOp fa s (fun d => d) with
    | error e => rw [hop1] at h; exact absurd h (by simp)
    | ok s1 =>
      rw [hop1] at h
      dsimp only at h
      have e1 : s1 = ⟨s.db, s.ops + 1⟩ := doOp_ok hop1
      cases hrp : recipeForProduct s1.db item.name with
      | none =>
        rw [hrp] at h
        dsimp only at h
        rw [ih s1 s' h]
        rw [e1] at hrp ⊢
        show pureApplyItems s.db rest = pureApplyItems s.db (item :: rest)
        rw [pureApplyItems]
        rw [pureApplyItem, hrp]
      | some rid =>
        rw [hrp] at h
        dsimp only at h
        cases hop2 : doOp fa s1 (fun d => d) with
        | error e => rw [hop2] at h; exact absurd h (by simp)
        | ok s2 =>
          rw [hop2] at h
          dsimp only at h
          have e2 : s2 = ⟨s1.db, s1.ops + 1⟩ := doOp_ok hop2
          cases hdi : deductItemIngredients fa item.quantity
              (recipeIngredientsFor s2.db rid) s2 with
          | error e => rw [hdi] at h; exact absurd h (by simp)
          | ok s3 =>
            rw [hdi] at h
            dsimp only at h
            have e3 := deductItemIngredients_ok fa item.quantity _ s2 s3 hdi
            rw [ih s3 s' h, e3]
            rw [e2]
            rw [e1] at hrp ⊢
            dsimp only at hrp ⊢
            conv_rhs => rw [pureApplyItems]
            rw [pureApplyItem, hrp]

/-- With no injected failure the cart loop never raises. -/
theorem deductItems_none_ok :
    ∀ (items : List SoldItem) (s : TxState),
      ∃ s', deductItems none items s = .ok s' := by
  intro items
  induction items with
  | nil => intro s; exact ⟨s, rfl⟩
  | cons item rest ih =>
    intro s
    rw [deductItems]
    rw [doOp_none]
    dsimp only
    cases hrp : recipeForProduct s.db item.name with
    | none => exact ih _
    | some rid =>
      rw [doOp_none]
      dsimp only
      rcases deductItemIngredients_none_ok item.quantity
        (recipeIngredientsFor s.db rid) ⟨s.db, s.ops + 1 + 1⟩ with ⟨s3, h3⟩
      rw [h3]
      exact ih _

/-- The failure-free deduction request commits the pure deduction state
followed by the bulk recompute, and acknowledges success. -/
theorem deduct_none_eq (db : DB) (cart : List SoldItem) :
    deduct db cart none =
      (bulkRecompute (pureApplyItems db cart),
       .success "Inventory deducted successfully.") := by
  unfold deduct
  rcases deductItems_none_ok cart ⟨db, 0⟩ with ⟨s1, h1⟩
  rw [h1]
  dsimp only
  rw [doOp_none]
  dsimp only
  rw [doOp_none]
  dsimp only
  rw [deductItems_ok none cart ⟨db, 0⟩ s1 h1]

/-- Resolution-table congruence: the product-to-recipe lookup only reads
the Recipes and Products tables. -/
theorem recipeForProduct_congr (db1 db2 : DB) (name : String)
    (hr : db1.recipes = db2.recipes) (hp : db1.products = db2.products) :
    recipeForProduct db1 name = recipeForProduct db2 name := by
  unfold recipeForProduct
  rw [hr, hp]

/-- Resolution-table congruence: the recipe-row lookup only reads the
RecipeIngredients table. -/
theorem recipeIngredientsFor_congr (db1 db2 : DB) (rid : Nat)
    (hri : db1.recipeIngredients = db2.recipeIngredients) :
    recipeIngredientsFor db1 rid = recipeIngredientsFor db2 rid := by
  unfold recipeIngredientsFor
  rw [hri]

/-- Deduction writes never touch the resolution tables. -/
theorem foldlDeduct_resolution (q : ℚ) :
    ∀ (ris : List RecipeIngredient) (db : DB),
      (ris.foldl (fun d ri => applyDeduction ri.ingredientId (ri.amount * q) d) db).recipes
          = db.recipes ∧
      (ris.foldl (fun d ri => applyDeduction ri.ingredientId (ri.amount * q) d) db).products
          = db.products ∧
      (ris.foldl (fun d ri =>
          applyDeduction ri.ingredientId (ri.amount * q) d) db).recipeIngredients
          = db.recipeIngredients := by
  intro ris
  induction ris with
  | nil => intro db; exact ⟨rfl, rfl, rfl⟩
  | cons ri rest ih =>
    intro db
    rw [List.foldl_cons]
    exact ih (applyDeduction ri.ingredientId (ri.amount * q) db)

/-- Processing one cart item never touches the resolution tables. -/
theorem pureApplyItem_resolution (db : DB) (item : SoldItem) :
    (pureApplyItem db item).recipes = db.recipes ∧
    (pureApplyItem db item).products = db.products ∧
    (pureApplyItem db item).recipeIngredients = db.recipeIngredients := by
  unfold pureApplyItem
  cases recipeForProduct db item.name with
  | none => exact ⟨rfl, rfl, rfl⟩
  | some rid => exact foldlDeduct_resolution _ _ db

/-- The deduction owed by one cart item depends only on the resolution
tables. -/
theorem itemDeduction_congr (db1 db2 : DB) (item : SoldItem) (iid : Nat)
    (hr : db1.recipes = db2.recipes) (hp : db1.products = db2.products)
    (hri : db1.recipeIngredients = db2.recipeIngredients) :
    itemDeduction db1 item iid = itemDeduction db2 item iid := by
  unfold itemDeduction
  rw [recipeForProduct_congr db1 db2 item.name hr hp]
  cases recipeForProduct db2 item.name with
  | none => rfl
  | some rid =>
    dsimp only
    rw [recipeIngredientsFor_congr db1 db2 rid hri]

/-- Earlier deduction writes do not change what later items owe. -/
theorem cartDeduction_pureApplyItem (db : DB) (item : SoldItem)
    (rest : List SoldItem) (iid : Nat) :
    cartDeduction (pureApplyItem db item) rest iid = cartDeduction db rest iid := by
  unfold cartDeduction
  rcases pureApplyItem_resolution db item with ⟨hr, hp, hri⟩
  have h : ∀ it : SoldItem,
      itemDeduction (pureApplyItem db item) it iid = itemDeduction db it iid :=
    fun it => itemDeduction_congr _ _ it iid hr hp hri
  rw [List.map_congr_left (fun it _ => h it)]

/-- Folding one recipe through applyDeduction subtracts, from each
ingredient, the sum of its matching recipe rows scaled by the sold
quantity. -/
theorem foldlDeduct_ingredients (q : ℚ) :
    ∀ (ris : List RecipeIngredient) (db : DB),
      (ris.foldl (fun d ri => applyDeduction ri.ingredientId (ri.amount * q) d) db).ingredients
        = db.ingredients.map (fun i =>
            { i with amount := i.amount -
                ((ris.filter (fun ri => ri.ingredientId == i.id)).map
                  (fun ri => ri.amount * q)).sum }) := by
  intro ris
  induction ris with
  | nil =>
    intro db
    rw [List.foldl_nil]
    have h : ∀ i ∈ db.ingredients,
        ({ i with amount := i.amount -
            ((([] : List RecipeIngredient).filter (fun ri => ri.ingredientId == i.id)).map
              (fun ri => ri.amount * q)).sum } : Ingredient) = i := by
      intro i _
      simp
    rw [List.map_congr_left h]
    simp
  | cons ri rest ih =>
    intro db
    rw [List.foldl_cons, ih]
    unfold applyDeduction
    dsimp only
    rw [List.map_map]
    apply List.map_congr_left
    intro i _
    dsimp only [Function.comp]
    by_cases h : i.id = ri.ingredientId
    · simp [h, List.filter_cons, sub_sub]
    · have h2 : ¬ ri.ingredientId = i.id := fun hh => h hh.symm
      simp [h, h2, List.filter_cons]

/-- One cart item subtracts exactly its owed deduction from every
ingredient. -/
theorem pureApplyItem_ingredients (db : DB) (item : SoldItem) :
    (pureApplyItem db item).ingredients =
      db.ingredients.map (fun i =>
        { i with amount := i.amount - itemDeduction db item i.id }) := by
  unfold pureApplyItem itemDeduction
  cases h : recipeForProduct db item.name with
  | none =>
    dsimp only
    have hid : ∀ i ∈ db.ingredients,
        ({ i with amount := i.amount - (0 : ℚ) } : Ingredient) = i := by
      intro i _
      simp
    rw [List.map_congr_left hid]
    simp
  | some rid =>
    dsimp only
    rw [foldlDeduct_ingredients]

/-- The whole cart subtracts exactly its total owed deduction from every
ingredient. -/
theorem pureApplyItems_ingredients :
    ∀ (cart : List SoldItem) (db : DB),
      (pureApplyItems db cart).ingredients =
        db.ingredients.map (fun i =>
          { i with amount := i.amount - cartDeduction db cart i.id }) := by
  intro cart
  induction cart with
  | nil =>
    intro db
    rw [pureApplyItems]
    have hid : ∀ i ∈ db.ingredients,
        ({ i with amount := i.amount - cartDeduction db [] i.id } : Ingredient) = i := by
      intro i _
      simp [cartDeduction]
    rw [List.map_congr_left hid]
    simp
  | cons item rest ih =>
    intro db
    rw [pureApplyItems, ih (pureApplyItem db item), pureApplyItem_ingredients, List.map_map]
    apply List.map_congr_left
    intro i _
    dsimp only [Function.comp]
    rw [cartDeduction_pureApplyItem db item rest]
    rw [sub_sub]
    have hsum : itemDeduction db item i.id + cartDeduction db rest i.id =
        cartDeduction db (item :: rest) i.id := by
      conv_rhs => rw [cartDeduction]
      rw [List.map_cons, List.sum_cons]
      rfl
    rw [hsum]

/-- Processing a concatenated cart is processing its parts in order. -/
theorem pureApplyItems_append :
    ∀ (xs ys : List SoldItem) (db : DB),
      pureApplyItems db (xs ++ ys) = pureApplyItems (pureApplyItems db xs) ys := by
  intro xs
  induction xs with
  | nil => intro ys db; rfl
  | cons x rest ih =>
    intro ys db
    show pureApplyItems (pureApplyItem db x) (rest ++ ys) =
      pureApplyItems (pureApplyItems (pureApplyItem db x) rest) ys
    exact ih ys (pureApplyItem db x)

/-- Processing a cart never touches the resolution tables. -/
theorem pureApplyItems_resolution :
    ∀ (xs : List SoldItem) (db : DB),
      (pureApplyItems db xs).recipes = db.recipes ∧
      (pureApplyItems db xs).products = db.products ∧
      (pureApplyItems db xs).recipeIngredients = db.recipeIngredients := by
  intro xs
  induction xs with
  | nil => intro db; exact ⟨rfl, rfl, rfl⟩
  | cons x rest ih =>
    intro db
    rcases ih (pureApplyItem db x) with ⟨hr, hp, hri⟩
    rcases pureApplyItem_resolution db x with ⟨hr2, hp2, hri2⟩
    exact ⟨hr.trans hr2, hp.trans hp2, hri.trans hri2⟩

/-! ## Claim theorems -/

/-- C1: every deduction request is atomic. For any store, any cart and
any injected data-access failure (failAt names the statement that
raises, none injects no failure), the observable outcome is either a
full rollback — the durable store is exactly the pre-request store and
one generic 500 is reported — or the single commit of the complete
transaction, namely all per-item deductions followed by the bulk status
pass, with the success acknowledgement. Partial deduction is never
observable. -/
theorem deduct_transaction_atomic (db : DB) (cart : List SoldItem) (failAt : Option Nat) :
    deduct db cart failAt = (db, .serverError 500 "Failed to update inventory.") ∨
    deduct db cart failAt =
      (bulkRecompute (pureApplyItems db cart),
       .success "Inventory deducted successfully.") := by
  unfold deduct
  cases h1 : deductItems failAt cart ⟨db, 0⟩ with
  | error e => left; rfl
  | ok s1 =>
    dsimp only
    cases h2 : doOp failAt s1 bulkRecompute with
    | error e => left; rfl
    | ok s2 =>
      dsimp only
      cases h3 : doOp failAt s2 (fun d => d) with
      | error e => left; rfl
      | ok s3 =>
        right
        have e1 := deductItems_ok failAt cart ⟨db, 0⟩ s1 h1
        have e2 : s2 = ⟨bulkRecompute s1.db, s1.ops + 1⟩ := doOp_ok h2
        have e3 : s3 = ⟨s2.db, s2.ops + 1⟩ := doOp_ok h3
        dsimp only
        rw [e3, e2]
        dsimp only
        rw [e1]

/-- C2: on the failure-free run, every ingredient of the table ends with
its stored amount decreased by exactly the sum over the cart of
per-unit-amount times sold quantity for each recipe row naming it, with
no floor or clamp (rational subtraction may go negative), and every
ingredient of the table — touched or not — gets the bulk-pass status for
its new amount, computed from the same threshold table (50, 0.5, 100,
0.5, fallback 1) as the single-record rule; the request acknowledges
success. -/
theorem deduct_amounts_and_bulk (db : DB) (cart : List SoldItem) :
    (deduct db cart none).1.ingredients =
      db.ingredients.map (fun i =>
        { i with amount := i.amount - cartDeduction db cart i.id,
                 stat := bulk_status (i.amount - cartDeduction db cart i.id)
                           i.measurement }) ∧
    (deduct db cart none).2 = .success "Inventory deducted successfully." := by
  rw [deduct_none_eq]
  constructor
  · dsimp only
    unfold bulkRecompute
    dsimp only
    rw [pureApplyItems_ingredients, List.map_map]
    apply List.map_congr_left
    intro i _
    rfl
  · rfl

/-- C3 (amended): the lifecycle rule as claimed — expiration on or
before today wins over zero quantity, then zero quantity means Used,
else Available — holds at batch creation and at batch update; the lazy
recompute of the two batch read endpoints instead checks zero quantity
first (yielding Used even for an expired empty batch), marks Expired
only when the expiration is strictly before today, and otherwise keeps
the stored status unchanged rather than resetting it to Available. -/
theorem batch_lifecycle_paths (q : ℚ) (e t : Int) (stored : String) :
    (e ≤ t → create_batch_status q e t = "Expired") ∧
    (t < e → q = 0 → create_batch_status q e t = "Used") ∧
    (t < e → q ≠ 0 → create_batch_status q e t = "Available") ∧
    (update_batch_status q e t = create_batch_status q e t) ∧
    (q = 0 → lazy_status stored q e t = "Used") ∧
    (q ≠ 0 → e < t → lazy_status stored q e t = "Expired") ∧
    (q ≠ 0 → t ≤ e → lazy_status stored q e t = stored) := by
  refine ⟨fun h => by simp [create_batch_status, h],
          fun ht hq => by simp [create_batch_status, not_le.mpr ht, hq],
          fun ht hq => by simp [create_batch_status, not_le.mpr ht, hq],
          by simp [create_batch_status, update_batch_status],
          fun hq => by simp [lazy_status, hq],
          fun hq he => by simp [lazy_status, hq, he],
          fun hq he => by simp [lazy_status, hq, not_lt.mpr he]⟩

/-- Witness for C3: concrete evaluations of every clause used. -/
theorem batch_lifecycle_paths_witness :
    create_batch_status 7 3 5 = "Expired" ∧
    update_batch_status 0 9 5 = create_batch_status 0 9 5 ∧
    lazy_status "Available" 0 3 5 = "Used" ∧
    lazy_status "Available" 4 2 5 = "Expired" ∧
    lazy_status "Expired" 4 9 5 = "Expired" :=
  ⟨(batch_lifecycle_paths 7 3 5 "x").1 (by decide),
   (batch_lifecycle_paths 0 9 5 "x").2.2.2.1,
   (batch_lifecycle_paths 0 3 5 "Available").2.2.2.2.1 rfl,
   (batch_lifecycle_paths 4 2 5 "Available").2.2.2.2.2.1 (by norm_num) (by decide),
   (batch_lifecycle_paths 4 9 5 "Expired").2.2.2.2.2.2 (by norm_num) (by decide)⟩

/-- Counterexample to C3 as stated: an empty batch whose expiration
equals today is recomputed to Used by the lazy read path, while the
claimed rule (implemented at creation) demands Expired — expiration does
not take precedence there. -/
theorem lazy_status_violates_lifecycle_rule :
    lazy_status "Available" 0 5 5 = "Used" ∧
    create_batch_status 0 5 5 = "Expired" ∧
    ("Used" : String) ≠ "Expired" :=
  ⟨by decide, by decide, by decide⟩

/-- C4 (amended): the single-record threshold rule and the bulk SQL pass
produce identical labels for every amount and every unit string whose
lowercase form carries no trailing blanks — in particular for all
mixed-case variants — but they can disagree on trailing-blank variants,
because SQL comparison ignores trailing blanks while the Python dict
lookup does not. -/
theorem threshold_single_bulk_agree (amount : ℚ) (m : String)
    (h : rtrim (lowerStr m) = lowerStr m) :
    get_status amount m = bulk_status amount m := by
  unfold get_status bulk_status
  rw [sqlStrEq_of_rtrim m "g" h (by decide), sqlStrEq_of_rtrim m "kg" h (by decide),
      sqlStrEq_of_rtrim m "ml" h (by decide), sqlStrEq_of_rtrim m "l" h (by decide)]
  by_cases h1 : lowerStr m = "g" <;> by_cases h2 : lowerStr m = "kg" <;>
    by_cases h3 : lowerStr m = "ml" <;> by_cases h4 : lowerStr m = "l" <;>
    simp [thresholds, h1, h2, h3, h4]

/-- Witness for C4 (amended): a mixed-case unit evaluated on both rules. -/
theorem threshold_single_bulk_agree_witness :
    rtrim (lowerStr "KG") = lowerStr "KG" ∧
    get_status (1/4) "KG" = bulk_status (1/4) "KG" :=
  ⟨by decide, threshold_single_bulk_agree (1/4) "KG" (by decide)⟩

/-- Counterexample to C4 as stated: at amount 10 the unit string g with
a trailing blank is Available to the single-record rule (dict miss,
fallback threshold 1) but Low Stock to the bulk SQL pass (trailing-blank
padding makes it match the g branch with threshold 50). -/
theorem threshold_single_bulk_disagree :
    get_status 10 "g " ≠ bulk_status 10 "g " ∧
    get_status 10 "g " = "Available" ∧ bulk_status 10 "g " = "Low Stock" :=
  ⟨by decide, by decide, by decide⟩

/-- C5: the single-record threshold rule returns Not Available for every
amount at or below zero regardless of unit, Low Stock for positive
amounts at or below the unit threshold, and Available above it, where
the threshold is 50 for g, 0.5 for kg, 100 for ml, 0.5 for l and 1 for
any other unit (empty included), matched case-insensitively. -/
theorem get_status_threshold_rule (amount : ℚ) (u : String) :
    (amount ≤ 0 → get_status amount u = "Not Available") ∧
    (0 < amount → amount ≤ spec_threshold u → get_status amount u = "Low Stock") ∧
    (spec_threshold u < amount → get_status amount u = "Available") := by
  refine ⟨fun h => by simp [get_status, h], fun h0 hle => ?_, fun hgt => ?_⟩
  · simp [get_status, not_le.mpr h0, thresholds_getD, hle]
  · have h0 : ¬ amount ≤ 0 := not_le.mpr ((spec_threshold_pos u).trans hgt)
    simp [get_status, h0, thresholds_getD, not_le.mpr hgt]

/-- Witness for C5: each clause evaluated at a concrete input, with a
mixed-case unit and the empty-unit fallback. -/
theorem get_status_threshold_rule_witness :
    get_status (-3) "g" = "Not Available" ∧ get_status 40 "G" = "Low Stock" ∧
    get_status 60 "g" = "Available" ∧ get_status 2 "" = "Available" :=
  ⟨(get_status_threshold_rule (-3) "g").1 (by norm_num),
   (get_status_threshold_rule 40 "G").2.1 (by norm_num) (by decide),
   (get_status_threshold_rule 60 "g").2.2 (by decide),
   (get_status_threshold_rule 2 "").2.2 (by decide)⟩

/-- C6 (amended): on the lazy batch read paths a status write is issued
exactly for the fetched rows whose recomputed status differs from the
stored one — recomputing an already-correct row writes nothing — but the
batch update endpoint issues its status write unconditionally on every
successful update, even when the recomputed status equals the stored
one. -/
theorem status_write_discipline (db : DB) (today : Int) (batch_id : Nat)
    (data : BatchUpdate) :
    (get_all_batches db today).2 =
      ((db.batches.filter (fun b =>
          db.ingredients.any (fun i => i.id == b.ingredientId))).filter
        (fun b => lazy_status b.stat b.quantity b.expirationDate today ≠ b.stat)).length ∧
    (∀ r, (update_batch db batch_id data today).2.1 = .ok r →
       (update_batch db batch_id data today).2.2 = 1) := by
  constructor
  · unfold get_all_batches
    rw [lazy_fold_count]
    simp
  · intro r hok
    rcases update_batch_write_or_error db batch_id data today with ⟨e, he⟩ | h1
    · exfalso
      have h2 : (update_batch db batch_id data today).2.1 = Except.error e := by rw [he]
      rw [hok] at h2
      exact absurd h2 (by simp)
    · exact h1

/-- Witness for C6 (amended): a store whose one batch already carries
its correct status sees zero writes on the lazy read, while a notes-only
update of that same batch still performs one status write. -/
theorem status_write_discipline_witness :
    (get_all_batches ⟨[⟨1, "milk", 100, "ml", 0, 99, "Available"⟩],
        [⟨7, 1, 10, "ml", 0, 50, 0, "alice", none, "Available"⟩], [], [], []⟩ 0).2 = 0 ∧
    (update_batch ⟨[⟨1, "milk", 100, "ml", 0, 99, "Available"⟩],
        [⟨7, 1, 10, "ml", 0, 50, 0, "alice", none, "Available"⟩], [], [], []⟩ 7
        ⟨none, none, none, none, none, some (some "checked")⟩ 0).2.2 = 1 :=
  ⟨((status_write_discipline ⟨[⟨1, "milk", 100, "ml", 0, 99, "Available"⟩],
        [⟨7, 1, 10, "ml", 0, 50, 0, "alice", none, "Available"⟩], [], [], []⟩ 0 7
        ⟨none, none, none, none, none, some (some "checked")⟩).1).trans (by decide),
   (status_write_discipline ⟨[⟨1, "milk", 100, "ml", 0, 99, "Available"⟩],
        [⟨7, 1, 10, "ml", 0, 50, 0, "alice", none, "Available"⟩], [], [], []⟩ 0 7
        ⟨none, none, none, none, none, some (some "checked")⟩).2
     ⟨7, 1, 10, "ml", 0, 50, 0, "alice", some "checked", "Available"⟩ rfl⟩

/-- Counterexample to C6 as stated: a batch whose stored status already
equals the recomputed lifecycle status (Available, quantity 10,
expiration well after today) still gets one status write from the batch
update endpoint. -/
theorem update_batch_always_writes_status :
    update_batch_status 5 10 0 = "Available" ∧
    (update_batch ⟨[⟨1, "milk", 100, "ml", 0, 99, "Available"⟩],
        [⟨1, 1, 5, "ml", 0, 10, 0, "alice", none, "Available"⟩], [], [], []⟩ 1
        ⟨none, none, none, none, none, some (some "checked")⟩ 0).2.2 = 1 :=
  ⟨by decide, by decide⟩

/-- C7: a cart item whose product name resolves to no recipe is skipped
without error: removing it from the request changes nothing — the
store and response are identical with or without the item — and the
failure-free request still acknowledges success. -/
theorem deduct_skip_unresolvable (db : DB) (pre : List SoldItem) (item : SoldItem)
    (post : List SoldItem) (h : recipeForProduct db item.name = none) :
    deduct db (pre ++ item :: post) none = deduct db (pre ++ post) none ∧
    (deduct db (pre ++ item :: post) none).2 =
      .success "Inventory deducted successfully." := by
  have hstate : pureApplyItems db (pre ++ item :: post) = pureApplyItems db (pre ++ post) := by
    rw [pureApplyItems_append, pureApplyItems_append]
    rcases pureApplyItems_resolution pre db with ⟨hr, hp, _⟩
    have hrp : recipeForProduct (pureApplyItems db pre) item.name = none :=
      (recipeForProduct_congr (pureApplyItems db pre) db item.name hr hp).trans h
    show pureApplyItems (pureApplyItem (pureApplyItems db pre) item) post = _
    rw [pureApplyItem, hrp]
  constructor
  · rw [deduct_none_eq, deduct_none_eq, hstate]
  · rw [deduct_none_eq]

/-- Witness for C7: selling a product with no recipe in a store with no
recipes at all equals the empty sale and still succeeds. -/
theorem deduct_skip_unresolvable_witness :
    deduct ⟨[⟨1, "milk", 100, "ml", 0, 99, "Available"⟩], [], [], [], []⟩
        [⟨"Latte", 2⟩] none =
      deduct ⟨[⟨1, "milk", 100, "ml", 0, 99, "Available"⟩], [], [], [], []⟩ [] none ∧
    (deduct ⟨[⟨1, "milk", 100, "ml", 0, 99, "Available"⟩], [], [], [], []⟩
        [⟨"Latte", 2⟩] none).2 = .success "Inventory deducted successfully." :=
  deduct_skip_unresolvable ⟨[⟨1, "milk", 100, "ml", 0, 99, "Available"⟩], [], [], [], []⟩
    [] ⟨"Latte", 2⟩ [] rfl

/-- C8: a batch quantity contributes additively to the parent ingredient
amount. Creating a batch with quantity q adds exactly q to the matching
ingredient rows and leaves every other ingredient unchanged; updating a
batch whose stored quantity is old to a supplied quantity q applies the
delta q minus old, not the absolute value. -/
theorem batch_quantity_additive (db : DB) (batch : BatchCreate) (newId : Nat)
    (today now : Int) (batch_id : Nat) (data : BatchUpdate) (old_row : Batch) (q : ℚ) :
    ((∃ i ∈ db.ingredients, i.id = batch.ingredient_id) →
      (create_batch db batch newId today now).1.ingredients =
        db.ingredients.map (fun i =>
          if i.id == batch.ingredient_id then { i with amount := i.amount + batch.quantity }
          else i)) ∧
    (db.batches.find? (fun b => b.batchId == batch_id) = some old_row →
     data.quantity = some q →
      (update_batch db batch_id data today).1.ingredients =
        db.ingredients.map (fun i =>
          if i.id == old_row.ingredientId then
            { i with amount := i.amount + (q - old_row.quantity) }
          else i)) := by
  constructor
  · rintro ⟨i, hi, hid⟩
    have hfind : (db.ingredients.find? (fun j => j.id == batch.ingredient_id)).isSome :=
      List.find?_isSome.mpr ⟨i, hi, by simp [hid]⟩
    unfold create_batch
    cases hf : db.ingredients.find? (fun j => j.id == batch.ingredient_id) with
    | none => rw [hf] at hfind; simp at hfind
    | some j => rfl
  · intro hfind hq
    have hemp : data.isEmpty = false := by
      unfold BatchUpdate.isEmpty
      rw [hq]
      simp
    unfold update_batch
    rw [hfind]
    simp only [hemp, Bool.false_eq_true, if_false]
    rw [hq]
    dsimp only
    have hgid : ∀ b : Batch,
        (if b.batchId == batch_id then applyBatchUpdate data b else b).batchId = b.batchId := by
      intro b
      by_cases h : b.batchId = batch_id <;> simp [applyBatchUpdate, h]
    have hcomp : ((fun b => b.batchId == batch_id) ∘
        (fun b => if b.batchId == batch_id then applyBatchUpdate data b else b)) =
        (fun b => b.batchId == batch_id) := by
      funext b
      dsimp only [Function.comp]
      rw [hgid b]
    rw [List.find?_map, hcomp, hfind]
    rfl

/-- Witness for C8: creating a batch of quantity 10 lifts the parent
amount from 100 to 110, and updating a batch from quantity 10 to 15
lifts it from 100 to 105 — the delta 5, not the absolute 15. -/
theorem batch_quantity_additive_witness :
    (create_batch ⟨[⟨1, "milk", 100, "ml", 0, 99, "Available"⟩],
        [⟨7, 1, 10, "ml", 0, 50, 0, "alice", none, "Available"⟩], [], [], []⟩
        ⟨1, 10, "ml", 0, 50, "alice", none⟩ 8 0 0).1.ingredients =
      [⟨1, "milk", 110, "ml", 0, 99, "Available"⟩] ∧
    (update_batch ⟨[⟨1, "milk", 100, "ml", 0, 99, "Available"⟩],
        [⟨7, 1, 10, "ml", 0, 50, 0, "alice", none, "Available"⟩], [], [], []⟩ 7
        ⟨some 15, none, none, none, none, none⟩ 0).1.ingredients =
      [⟨1, "milk", 105, "ml", 0, 99, "Available"⟩] :=
  ⟨((batch_quantity_additive ⟨[⟨1, "milk", 100, "ml", 0, 99, "Available"⟩],
        [⟨7, 1, 10, "ml", 0, 50, 0, "alice", none, "Available"⟩], [], [], []⟩
        ⟨1, 10, "ml", 0, 50, "alice", none⟩ 8 0 0 7
        ⟨some 15, none, none, none, none, none⟩
        ⟨7, 1, 10, "ml", 0, 50, 0, "alice", none, "Available"⟩ 15).1
      ⟨⟨1, "milk", 100, "ml", 0, 99, "Available"⟩, by decide, rfl⟩).trans (by norm_num),
   ((batch_quantity_additive ⟨[⟨1, "milk", 100, "ml", 0, 99, "Available"⟩],
        [⟨7, 1, 10, "ml", 0, 50, 0, "alice", none, "Available"⟩], [], [], []⟩
        ⟨1, 10, "ml", 0, 50, "alice", none⟩ 8 0 0 7
        ⟨some 15, none, none, none, none, none⟩
        ⟨7, 1, 10, "ml", 0, 50, 0, "alice", none, "Available"⟩ 15).2
      (by decide) rfl).trans (by norm_num)⟩

/-- C9: creating an ingredient whose name matches an existing row
case-insensitively is rejected with the 409 conflict and the store is
returned unchanged — no insert and no modification. -/
theorem add_ingredient_name_conflict (db : DB) (ing : IngredientCreate) (newId : Nat)
    (h : ∃ i ∈ db.ingredients, lowerStr i.name = lowerStr ing.IngredientName) :
    add_ingredient db ing newId = (db, .error ⟨409, "Ingredient name already exists."⟩) := by
  have hany : db.ingredients.any (fun i => sqlStrEq i.name ing.IngredientName) = true := by
    rcases h with ⟨i, hi, hname⟩
    refine List.any_eq_true.mpr ⟨i, hi, ?_⟩
    unfold sqlStrEq
    rw [hname]
    simp
  simp [add_ingredient, hany]

/-- Witness for C9: creating Milk when milk exists is the 409 conflict
with the store unchanged. -/
theorem add_ingredient_name_conflict_witness :
    add_ingredient ⟨[⟨1, "milk", 20, "ml", 0, 9, "Low Stock"⟩], [], [], [], []⟩
        ⟨"Milk", 5, "ml", 0, 9⟩ 2 =
      (⟨[⟨1, "milk", 20, "ml", 0, 9, "Low Stock"⟩], [], [], [], []⟩,
       .error ⟨409, "Ingredient name already exists."⟩) :=
  add_ingredient_name_conflict _ _ 2 ⟨⟨1, "milk", 20, "ml", 0, 9, "Low Stock"⟩, by decide, by decide⟩

/-- C10: the ingredient update checks the name conflict before the
existence of the target: a case-insensitive collision with a different
existing row yields the 409 conflict with the store unchanged even when
the targeted id is absent, and the 404 answer occurs only when no such
collision exists and no row carries the targeted id. -/
theorem update_ingredient_conflict_priority (db : DB) (ingredient_id : Nat)
    (ing : IngredientUpdate) :
    ((∃ i ∈ db.ingredients,
        lowerStr i.name = lowerStr ing.IngredientName ∧ i.id ≠ ingredient_id) →
      update_ingredient db ingredient_id ing =
        (db, .error ⟨409, "Ingredient name already exists."⟩)) ∧
    ((update_ingredient db ingredient_id ing).2 = .error ⟨404, "Ingredient not found"⟩ →
      (¬ ∃ i ∈ db.ingredients,
          lowerStr i.name = lowerStr ing.IngredientName ∧ i.id ≠ ingredient_id) ∧
      ¬ ∃ i ∈ db.ingredients, i.id = ingredient_id) := by
  constructor
  · rintro ⟨i, hi, hname, hid⟩
    have hany : db.ingredients.any
        (fun i => sqlStrEq i.name ing.IngredientName && !(i.id == ingredient_id)) = true := by
      refine List.any_eq_true.mpr ⟨i, hi, ?_⟩
      have h1 : sqlStrEq i.name ing.IngredientName = true := by
        unfold sqlStrEq; rw [hname]; simp
      simp [h1, hid]
    simp [update_ingredient, hany]
  · intro h404
    by_cases hany : db.ingredients.any
        (fun i => sqlStrEq i.name ing.IngredientName && !(i.id == ingredient_id)) = true
    · exfalso
      simp [update_ingredient, hany] at h404
    · have hanyf : db.ingredients.any
          (fun i => sqlStrEq i.name ing.IngredientName && !(i.id == ingredient_id)) = false :=
        Bool.eq_false_iff.mpr hany
      constructor
      · rintro ⟨i, hi, hname, hid⟩
        have h1 : sqlStrEq i.name ing.IngredientName = true := by
          unfold sqlStrEq; rw [hname]; simp
        have hptrue : db.ingredients.any
            (fun i => sqlStrEq i.name ing.IngredientName && !(i.id == ingredient_id)) = true :=
          List.any_eq_true.mpr ⟨i, hi, by simp [h1, hid]⟩
        rw [hanyf] at hptrue
        exact Bool.false_ne_true hptrue
      · rintro ⟨i, hi, hid⟩
        simp only [update_ingredient, hanyf, Bool.false_eq_true, if_false] at h404
        set f : Ingredient → Ingredient := fun j =>
          if j.id == ingredient_id then
            { j with name := ing.IngredientName, amount := ing.Amount,
                     measurement := ing.Measurement, bestBefore := ing.BestBeforeDate,
                     expiration := ing.ExpirationDate,
                     stat := get_status ing.Amount ing.Measurement }
          else j with hf
        have hfid : ∀ j : Ingredient, (f j).id = j.id := by
          intro j
          by_cases h : j.id = ingredient_id <;> simp [hf, h]
        cases hfind : (db.ingredients.map f).find? (fun j => j.id == ingredient_id) with
        | some row => rw [hfind] at h404; exact absurd h404 (by simp)
        | none =>
          have hmem := List.find?_eq_none.mp hfind (f i) (List.mem_map_of_mem f hi)
          rw [hfid i] at hmem
          simp [hid] at hmem

/-- Witness for C10: updating the absent id 2 to the name MILK while id
1 holds milk answers the 409 conflict, not 404, with the store
unchanged. -/
theorem update_ingredient_conflict_priority_witness :
    update_ingredient ⟨[⟨1, "milk", 20, "ml", 0, 9, "Low Stock"⟩], [], [], [], []⟩ 2
        ⟨"MILK", 5, "ml", 0, 9⟩ =
      (⟨[⟨1, "milk", 20, "ml", 0, 9, "Low Stock"⟩], [], [], [], []⟩,
       .error ⟨409, "Ingredient name already exists."⟩) :=
  (update_ingredient_conflict_priority
      ⟨[⟨1, "milk", 20, "ml", 0, 9, "Low Stock"⟩], [], [], [], []⟩ 2 ⟨"MILK", 5, "ml", 0, 9⟩).1
    ⟨⟨1, "milk", 20, "ml", 0, 9, "Low Stock"⟩, by decide, by decide, by decide⟩

end IngredientService
